import Mathlib

/-!
Verification of the event-consumption and routing engine in
`sdks/python/eda_sdk/consumer.py` (class `Consumer`), together with the
supporting types from `sdks/python/eda_sdk/types.py`.

The embedding models:
* `CloudEvent` values (required attributes plus the three optional ones the
  router serializes); the `data` payload is kept as its opaque JSON rendering.
* raw Kafka messages and the header conversion performed by
  `Consumer._parse_cloud_event`;
* the decode orchestration (`_parse_cloud_event`), with the external
  `cloudevents.kafka` strategies `from_structured` / `from_binary` as
  parameters (exceptions modelled as `none`);
* handler classification (`_detect_output_handler`) and the conditional
  producer construction in `Consumer.__init__`;
* serialization and routing (`_publish_output_event`, `_publish_to_kafka`),
  with `DestinationType` as its `IntEnum` values;
* the poll loop body of `Consumer.start` as a step function over the
  consecutive-error counter, plus a runner over a list of poll results;
* `Consumer.close` as a sequence of fallible releases.

Python exceptions are modelled by an explicit error type tagged with the
raise site, so that reachability of individual `raise` branches is statable.
-/

namespace EdaSdk

/-- Canonical event record (CloudEvents-shaped). Required attributes
`specversion`, `type`, `source`, `id`; optional `time`, `datacontenttype`
and `data`. The `data` payload is modelled as its JSON rendering. -/
structure CloudEvent where
  specversion : String
  type : String
  source : String
  id : String
  time : Option String
  datacontenttype : Option String
  data : Option String
deriving Repr, DecidableEq

/-- Value of a raw Kafka header, as `confluent_kafka` hands it over:
a unicode string, a byte string, or `None`. Byte strings are modelled by
their decoded text. -/
inductive HeaderVal where
  | str (s : String)
  | bytes (b : String)
  | null
deriving Repr, DecidableEq

/-- Raw broker message (`confluent_kafka.Message`): key, value and headers
may each be absent. Byte payloads are modelled as strings. -/
structure RawMessage where
  key : Option String
  value : Option String
  headers : Option (List (String × HeaderVal))
deriving Repr, DecidableEq

/-- The `cloudevents.kafka.KafkaMessage` record built at consumer.py:181:
headers normalised to a bytes-valued dict, original key, non-absent value. -/
structure KafkaMessage where
  headers : List (String × String)
  key : Option String
  value : String
deriving Repr, DecidableEq

/-- Python dict assignment `d[k] = v`: update in place when the key exists,
otherwise append, preserving insertion order. -/
def dictInsert (d : List (String × String)) (k v : String) : List (String × String) :=
  if d.any (fun p => p.1 = k) then
    d.map (fun p => if p.1 = k then (k, v) else p)
  else
    d ++ [(k, v)]

/-- Header normalisation loop of `Consumer._parse_cloud_event`
(consumer.py:170-179): absent header lists give an empty dict; `None`
values are dropped; `str` values are utf-8 encoded (identity here); byte
values are kept. -/
def build_headers (hs : Option (List (String × HeaderVal))) : List (String × String) :=
  match hs with
  | none => []
  | some l =>
    l.foldl (fun d p =>
      match p.2 with
      | HeaderVal.str s => dictInsert d p.1 s
      | HeaderVal.bytes b => dictInsert d p.1 b
      | HeaderVal.null => d) []

/-- The `KafkaMessage` constructed at consumer.py:181 from a raw message
whose value is `v`. -/
def to_kafka_message (msg : RawMessage) (v : String) : KafkaMessage :=
  ⟨build_headers msg.headers, msg.key, v⟩

/-- Decode strategy: one of the `cloudevents.kafka` conversion functions
(`from_structured` or `from_binary`); raising is modelled as `none`. -/
def Strategy : Type := KafkaMessage → Option CloudEvent

/-- Embedding of `Consumer._parse_cloud_event` (consumer.py:151-196): an
absent value is rejected before any strategy runs; otherwise the structured
strategy is tried first, then the binary strategy; the first success is
returned and `none` when both fail. -/
def parse_cloud_event (from_structured from_binary : Strategy)
    (msg : RawMessage) : Option CloudEvent :=
  match msg.value with
  | none => none
  | some v =>
    let kafka_msg := to_kafka_message msg v
    match from_structured kafka_msg with
    | some event => some event
    | none =>
      match from_binary kafka_msg with
      | some event => some event
      | none => none

/-! Handler classification (`Consumer._detect_output_handler`,
consumer.py:69-85) and the conditional producer construction in
`Consumer.__init__` (consumer.py:25-67). -/

/-- Static view of the declared signature of a Python handler function, as seen by
`_detect_output_handler`. `has_hints` models `hasattr(handler, "__annotations__")`.
`return_type` models the Python value `handler.__annotations__.get("return")`:
`none` when the handler declares no return type or declares `-> None` (both
yield the `None` object, which the source treats identically via
`if return_type is not None`), and `some s` with `s = str(return_type)`
otherwise. -/
structure HandlerSig where
  has_hints : Bool
  return_type : Option String
deriving Repr, DecidableEq

/-- Occurrence of `pat` as a contiguous run of `l`. -/
def has_substr_chars (pat : List Char) : List Char → Bool
  | [] => pat.isEmpty
  | c :: rest => pat.isPrefixOf (c :: rest) || has_substr_chars pat rest

/-- Python membership test `"CloudEvent" in s`. -/
def mentions_cloud_event (s : String) : Bool :=
  has_substr_chars "CloudEvent".data s.data

/-- Embedding of `Consumer._detect_output_handler` (consumer.py:69-85):
with annotations present and a non-`None` return annotation, the handler is
output-producing exactly when `"CloudEvent"` occurs in `str(return_type)`;
in every other case the default `False` (simple handler) is returned. -/
def detect_output_handler (sig : HandlerSig) : Bool :=
  if sig.has_hints then
    match sig.return_type with
    | some s => mentions_cloud_event s
    | none => false
  else false

/-! Destination types (`types.py:8-14`, an `IntEnum`) and output destinations
(`types.py:26-32`). `IntEnum` members compare as their integer values, so the
kind is carried as an `Int`. -/

namespace DestinationType

/-- Value of `DestinationType.KAFKA` (types.py:11). -/
def KAFKA : Int := 0

/-- Value of `DestinationType.RABBITMQ` (types.py:12). -/
def RABBITMQ : Int := 1

/-- Value of `DestinationType.HTTP` (types.py:13). -/
def HTTP : Int := 2

/-- Value of `DestinationType.DISCARD` (types.py:14). -/
def DISCARD : Int := 3

end DestinationType

/-- Embedding of `OutputDestination` (types.py:26-32). -/
structure OutputDestination where
  type : Int
  target : String
  cluster : Option String
deriving Repr, DecidableEq

/-! Canonical serialization shared by `_publish_output_event`
(consumer.py:229-242) and `_publish_to_kafka` (consumer.py:283-296). -/

/-- JSON value in the serialized event dict: either a JSON string or the
opaque, already-serialized `data` payload. -/
inductive JVal where
  | str (s : String)
  | raw (j : String)
deriving Repr, DecidableEq

/-- Minimal model of the string escaping done by `json.dumps`. -/
def json_escape (s : String) : String :=
  s.foldl (fun acc c =>
    if c = '\\' then acc ++ "\\\\"
    else if c = '\"' then acc ++ "\\\""
    else acc.push c) ""

/-- Rendering of one JSON value. -/
def JVal.render : JVal → String
  | JVal.str s => "\"" ++ json_escape s ++ "\""
  | JVal.raw j => j

/-- Model of `json.dumps` on a Python dict, which serializes keys in
insertion order with default separators. -/
def json_dumps (kvs : List (String × JVal)) : String :=
  "\x7b" ++ String.intercalate ", "
    (kvs.map (fun p => "\"" ++ json_escape p.1 ++ "\": " ++ p.2.render)) ++ "\x7d"

/-- The `event_dict` built identically at consumer.py:229-240 and
consumer.py:283-294: required keys `specversion`, `type`, `source`, `id` in
that order, then `time`, `datacontenttype`, `data`, each appended only when
present on the event. -/
def event_dict (event : CloudEvent) : List (String × JVal) :=
  let d := [("specversion", JVal.str event.specversion),
            ("type", JVal.str event.type),
            ("source", JVal.str event.source),
            ("id", JVal.str event.id)]
  let d := match event.time with
    | some t => d ++ [("time", JVal.str t)]
    | none => d
  let d := match event.datacontenttype with
    | some c => d ++ [("datacontenttype", JVal.str c)]
    | none => d
  match event.data with
  | some x => d ++ [("data", JVal.raw x)]
  | none => d

/-! Exceptions, the consumer model and the observable effects of one
dispatch. -/

/-- Python exceptions flowing through the consumer, tagged by raise site:
the two `RuntimeError("Producer not initialized")` guards
(consumer.py:226 and consumer.py:280), the
`RuntimeError(f"Unknown destination type: ...")` at consumer.py:267,
an exception raised by the user handler, an exception raised inside a core
delegate call, and the `KafkaException` raised at consumer.py:117. -/
inductive PyExc where
  | producerNotInitialized
  | unknownDest (t : Int)
  | handlerExc (msg : String)
  | delegateExc (msg : String)
  | kafkaExc (msg : String)
deriving Repr, DecidableEq

/-- Model of Python `str(e)` for an exception, as passed to
`core.should_retry` at consumer.py:136. -/
def PyExc.toMessage : PyExc → String
  | PyExc.producerNotInitialized => "Producer not initialized"
  | PyExc.unknownDest _ => "Unknown destination type"
  | PyExc.handlerExc m => m
  | PyExc.delegateExc m => m
  | PyExc.kafkaExc m => m

/-- Behaviour of the `Core` delegate (core.py:8-81) as seen by the consumer:
each operation may raise (`Except.error`). -/
structure CoreModel where
  should_retry : String → Nat → Except String Bool
  calculate_backoff : Nat → Except String Nat
  get_output_destination : String → Except String OutputDestination
deriving Inhabited

/-- State and collaborators of a constructed `Consumer` (consumer.py:22-67).
`is_output_handler` and `producer_present` are assigned once in `__init__`
(consumer.py:41 and consumer.py:38/66) and are never reassigned anywhere else
in the source, so they are immutable here. The user handler may raise
(`Except.error`) or return an optional output event; for a simple handler the
returned value is ignored by `_invoke_handler`. -/
structure ConsumerModel where
  is_output_handler : Bool
  producer_present : Bool
  handler : CloudEvent → Except String (Option CloudEvent)
  from_structured : Strategy
  from_binary : Strategy
  core : CoreModel

/-- Embedding of the tail of `Consumer.__init__` (consumer.py:41, 64-67): the
handler is classified exactly once and a producer is constructed exactly when
the classification is output-producing. -/
def consumer_init (sig : HandlerSig) (handler : CloudEvent → Except String (Option CloudEvent))
    (from_structured from_binary : Strategy) (core : CoreModel) : ConsumerModel :=
  let is_output := detect_output_handler sig
  ⟨is_output, is_output, handler, from_structured, from_binary, core⟩

/-- Observable effects of processing one decoded event: handler invocations,
`core.get_output_destination` calls (with the serialized event passed),
Kafka produce calls as (topic, key, value), and the counts of
`core.should_retry` / `core.calculate_backoff` consultations. -/
structure Effects where
  handlerCalls : List CloudEvent
  resolveCalls : List String
  produceCalls : List (String × String × String)
  retryChecks : Nat
  backoffChecks : Nat
deriving Repr, DecidableEq

/-- No effects. -/
def Effects.empty : Effects := ⟨[], [], [], 0, 0⟩

/-- Sequential composition of effects. -/
def Effects.append (a b : Effects) : Effects :=
  ⟨a.handlerCalls ++ b.handlerCalls, a.resolveCalls ++ b.resolveCalls,
   a.produceCalls ++ b.produceCalls, a.retryChecks + b.retryChecks,
   a.backoffChecks + b.backoffChecks⟩

/-- Result of a fallible operation together with the effects it performed
before returning or raising. -/
structure EffResult (α : Type) where
  eff : Effects
  res : Except PyExc α
deriving Repr

/-- Outcome of routing one output event, in the vocabulary of the spec:
delivered to Kafka, discarded by a DISCARD destination (consumer.py:260), or
discarded because the destination kind is unimplemented, with a logged
warning (consumer.py:261-265). -/
inductive RouteOutcome where
  | delivered
  | discarded
  | discardedUnsupported
deriving Repr, DecidableEq

/-- Embedding of `Consumer._publish_to_kafka` (consumer.py:269-306): after
the producer guard, serialize the canonical dict and produce exactly one
message to `topic` with the event id as key, then flush. -/
def publish_to_kafka (m : ConsumerModel) (event : CloudEvent) (topic : String) :
    EffResult RouteOutcome :=
  if m.producer_present = false then
    ⟨Effects.empty, Except.error PyExc.producerNotInitialized⟩
  else
    let event_json := json_dumps (event_dict event)
    ⟨{ Effects.empty with produceCalls := [(topic, event.id, event_json)] },
     Except.ok RouteOutcome.delivered⟩

/-- Embedding of `Consumer._publish_output_event` (consumer.py:216-267):
producer guard, canonical serialization, destination resolution through the
delegate, then the branch on the destination kind: KAFKA publishes, DISCARD
is a logged no-op, HTTP and RABBITMQ log a warning and discard, and every
other kind raises. -/
def publish_output_event (m : ConsumerModel) (event : CloudEvent) :
    EffResult RouteOutcome :=
  if m.producer_present = false then
    ⟨Effects.empty, Except.error PyExc.producerNotInitialized⟩
  else
    let event_json := json_dumps (event_dict event)
    let eff0 := { Effects.empty with resolveCalls := [event_json] }
    match m.core.get_output_destination event_json with
    | Except.error e => ⟨eff0, Except.error (PyExc.delegateExc e)⟩
    | Except.ok dest =>
      if dest.type = DestinationType.KAFKA then
        let r := publish_to_kafka m event dest.target
        ⟨eff0.append r.eff, r.res⟩
      else if dest.type = DestinationType.DISCARD then
        ⟨eff0, Except.ok RouteOutcome.discarded⟩
      else if dest.type = DestinationType.HTTP ∨ dest.type = DestinationType.RABBITMQ then
        ⟨eff0, Except.ok RouteOutcome.discardedUnsupported⟩
      else
        ⟨eff0, Except.error (PyExc.unknownDest dest.type)⟩

/-- Embedding of `Consumer._invoke_handler` (consumer.py:198-214): an
present result of an output-producing handler is routed; an absent result and
every simple-handler invocation end without routing. A raising handler
propagates its exception. -/
def invoke_handler (m : ConsumerModel) (event : CloudEvent) : EffResult Unit :=
  let called := { Effects.empty with handlerCalls := [event] }
  if m.is_output_handler then
    match m.handler event with
    | Except.error e => ⟨called, Except.error (PyExc.handlerExc e)⟩
    | Except.ok (some output_event) =>
      let r := publish_output_event m output_event
      ⟨called.append r.eff, r.res.map (fun _ => ())⟩
    | Except.ok none => ⟨called, Except.ok ()⟩
  else
    match m.handler event with
    | Except.error e => ⟨called, Except.error (PyExc.handlerExc e)⟩
    | Except.ok _ => ⟨called, Except.ok ()⟩

/-! The consumption loop of `Consumer.start` (consumer.py:87-149). -/

/-- Embedding of the dispatch block at consumer.py:128-144: the handler is
invoked; an exception is caught and logged, `core.should_retry` is consulted
(and on a positive answer `core.calculate_backoff`), with any exception from
either consultation caught at consumer.py:143-144. No path re-invokes the
handler or terminates the loop. -/
def handle_message (m : ConsumerModel) (event : CloudEvent) : Effects :=
  match invoke_handler m event with
  | ⟨eff, Except.ok _⟩ => eff
  | ⟨eff, Except.error e⟩ =>
    match m.core.should_retry (PyExc.toMessage e) 1 with
    | Except.error _ => { eff with retryChecks := eff.retryChecks + 1 }
    | Except.ok should =>
      if should then
        match m.core.calculate_backoff 1 with
        | Except.ok _ =>
          { eff with retryChecks := eff.retryChecks + 1,
                     backoffChecks := eff.backoffChecks + 1 }
        | Except.error _ =>
          { eff with retryChecks := eff.retryChecks + 1,
                     backoffChecks := eff.backoffChecks + 1 }
      else { eff with retryChecks := eff.retryChecks + 1 }

/-- Result of one `poll` call at consumer.py:103: `nothing` for a `None`
return, `eof` for an error with code `_PARTITION_EOF`, `err` for any other
message error, and `msg` for a successfully read message. -/
inductive PollResult where
  | nothing
  | eof
  | err (e : String)
  | msg (raw : RawMessage)
deriving Repr, DecidableEq

/-- Loop state: the `consecutive_errors` counter of consumer.py:97. -/
structure LoopState where
  consecutive_errors : Nat
deriving Repr, DecidableEq

/-- The threshold `max_consecutive_errors` of consumer.py:98. -/
def max_consecutive_errors : Nat := 5

/-- Outcome of one iteration of the `while True` body (consumer.py:101-144):
either the loop continues with a new counter value and the effects of this
iteration, or the iteration raised a fatal `KafkaException`
(consumer.py:117) terminating the loop. -/
inductive StepRes where
  | cont (st : LoopState) (eff : Effects)
  | fatal (st : LoopState) (exc : PyExc)
deriving Repr, DecidableEq

/-- The counter after a non-fatal iteration. -/
def StepRes.nextErrors : StepRes → Option Nat
  | StepRes.cont st _ => some st.consecutive_errors
  | StepRes.fatal _ _ => none

/-- Effects performed by an iteration. -/
def StepRes.getEff : StepRes → Effects
  | StepRes.cont _ eff => eff
  | StepRes.fatal _ _ => Effects.empty

/-- Whether the iteration terminated the loop. -/
def StepRes.isFatal : StepRes → Bool
  | StepRes.cont _ _ => false
  | StepRes.fatal _ _ => true

/-- Embedding of one iteration of the `while True` body of `Consumer.start`
(consumer.py:101-144): a `None` poll and an end-of-partition signal loop
back unchanged; any other message error increments the counter and raises a
`KafkaException` once the threshold is reached; a successful read resets the
counter to 0, then decodes (skipping on failure) and dispatches. -/
def loop_step (m : ConsumerModel) (st : LoopState) (p : PollResult) : StepRes :=
  match p with
  | PollResult.nothing => StepRes.cont st Effects.empty
  | PollResult.eof => StepRes.cont st Effects.empty
  | PollResult.err e =>
    let c := st.consecutive_errors + 1
    if c ≥ max_consecutive_errors then StepRes.fatal ⟨c⟩ (PyExc.kafkaExc e)
    else StepRes.cont ⟨c⟩ Effects.empty
  | PollResult.msg raw =>
    match parse_cloud_event m.from_structured m.from_binary raw with
    | none => StepRes.cont ⟨0⟩ Effects.empty
    | some event => StepRes.cont ⟨0⟩ (handle_message m event)

/-- The loop run over a finite list of poll results: returns the final
counter state, the effects of the iterations that were processed, and the
fatal exception when the loop terminated before exhausting the list
(iterations after a fatal one are never processed). -/
def run_loop (m : ConsumerModel) :
    LoopState → List PollResult → LoopState × List Effects × Option PyExc
  | st, [] => (st, [], none)
  | st, p :: ps =>
    match loop_step m st p with
    | StepRes.cont st2 eff =>
      let r := run_loop m st2 ps
      (r.1, eff :: r.2.1, r.2.2)
    | StepRes.fatal st2 exc => (st2, [], some exc)

/-! Shutdown (`Consumer.close`, consumer.py:308-320). -/

/-- One release call performed during `Consumer.close`: the producer flush
with its timeout argument (consumer.py:311), the consumer close
(consumer.py:315), and the core close (consumer.py:319). -/
inductive CloseStep where
  | producerFlush (timeout : Nat)
  | consumerClose
  | coreClose
deriving Repr, DecidableEq

/-- Inputs to `Consumer.close`: which handles are non-`None`, and the
behaviour of each underlying release call, `none` meaning success and
`some e` meaning the call raises with message `e`. -/
structure CloseEnv where
  producer_present : Bool
  consumer_present : Bool
  core_present : Bool
  flush_result : Option String
  consumer_close_result : Option String
  core_close_result : Option String
deriving Repr, DecidableEq

/-- The `self.core.close()` guard and call (consumer.py:318-320). -/
def close_core_part (env : CloseEnv) (done : List CloseStep) :
    List CloseStep × Option String :=
  if env.core_present then
    (done ++ [CloseStep.coreClose], env.core_close_result)
  else (done, none)

/-- The `self._consumer.close()` guard and call (consumer.py:314-316),
followed by the core close; an exception propagates immediately, skipping
the rest. -/
def close_consumer_part (env : CloseEnv) (done : List CloseStep) :
    List CloseStep × Option String :=
  if env.consumer_present then
    match env.consumer_close_result with
    | some e => (done ++ [CloseStep.consumerClose], some e)
    | none => close_core_part env (done ++ [CloseStep.consumerClose])
  else close_core_part env done

/-- Embedding of `Consumer.close` (consumer.py:308-320): flush the producer
with a 5 second timeout when present, then close the consumer when present,
then close the core when present. The statements run sequentially with no
exception handling, so a raising release propagates out of `close` and the
later releases are not attempted. Returns the list of attempted release
calls in order, and the propagated exception message if any. -/
def consumer_close (env : CloseEnv) : List CloseStep × Option String :=
  if env.producer_present then
    match env.flush_result with
    | some e => ([CloseStep.producerFlush 5], some e)
    | none => close_consumer_part env [CloseStep.producerFlush 5]
  else close_consumer_part env []

/-! Concrete fixtures, used by the witness and counterexample theorems. -/

/-- A decode strategy that always fails (raises). -/
def strat_none : Strategy := fun _ => none

/-- A decode strategy that always succeeds with a fixed event. -/
def strat_const (e : CloudEvent) : Strategy := fun _ => some e

/-- A sample inbound event with no optional attributes. -/
def sample_event : CloudEvent :=
  ⟨"1.0", "com.example.created", "/source", "id-1", none, none, none⟩

/-- A sample output event with all optional attributes present. -/
def sample_out_event : CloudEvent :=
  ⟨"1.0", "com.example.out", "/out", "id-2", some "2026-01-01T00:00:00Z",
   some "application/json", some "42"⟩

/-- A sample raw message with a present value and no headers. -/
def sample_msg : RawMessage := ⟨some "key", some "body", none⟩

/-- A sample destination of kind KAFKA. -/
def dest_kafka : OutputDestination := ⟨DestinationType.KAFKA, "out-topic", none⟩

/-- A sample destination of kind DISCARD. -/
def dest_discard : OutputDestination := ⟨DestinationType.DISCARD, "unused", none⟩

/-- A delegate that never retries and routes everything to DISCARD. -/
def core0 : CoreModel :=
  ⟨fun _ _ => Except.ok false, fun _ => Except.ok 100,
   fun _ => Except.ok dest_discard⟩

/-- A delegate that routes everything to `dest_kafka`. -/
def core_kafka : CoreModel :=
  ⟨fun _ _ => Except.ok false, fun _ => Except.ok 100,
   fun _ => Except.ok dest_kafka⟩

/-- A handler that succeeds returning no output event. -/
def handler_none : CloudEvent → Except String (Option CloudEvent) :=
  fun _ => Except.ok none

/-- A handler that returns `sample_out_event` for every input. -/
def handler_out : CloudEvent → Except String (Option CloudEvent) :=
  fun _ => Except.ok (some sample_out_event)

/-- A handler that raises on every input. -/
def handler_raise : CloudEvent → Except String (Option CloudEvent) :=
  fun _ => Except.error "boom"

/-- A simple consumer whose decode strategies both fail. -/
def model0 : ConsumerModel :=
  ⟨false, false, handler_none, strat_none, strat_none, core0⟩

/-- An output-producing consumer routing to Kafka, decoding every message to
`sample_event` in structured mode. -/
def model_out : ConsumerModel :=
  ⟨true, true, handler_out, strat_const sample_event, strat_none, core_kafka⟩

/-- An output-producing consumer whose delegate routes to DISCARD. -/
def model_discard : ConsumerModel :=
  ⟨true, true, handler_out, strat_none, strat_none, core0⟩

/-- A consumer whose handler raises, with decode succeeding in structured
mode. -/
def model_err : ConsumerModel :=
  ⟨false, false, handler_raise, strat_const sample_event, strat_none, core0⟩

/-- Signature of a handler declared `-> None` (or with no return hint). -/
def sig_simple : HandlerSig := ⟨true, none⟩

/-- Signature of a handler declared to return `Optional[CloudEvent]`, as
`str()` renders that annotation. -/
def sig_output : HandlerSig :=
  ⟨true, some "typing.Optional[cloudevents.http.event.CloudEvent]"⟩

/-- A shutdown environment where every handle is present and every release
succeeds. -/
def close_env_ok : CloseEnv := ⟨true, true, true, none, none, none⟩

/-- A shutdown environment where every handle is present and the producer
flush raises. -/
def close_env_flush_raises : CloseEnv :=
  ⟨true, true, true, some "flush timed out", none, none⟩

/-- C1: decode tries the structured strategy first and the binary strategy
second, returning the event from the first strategy that succeeds; a message
with an absent value is rejected before either strategy runs, and when the
structured strategy fails the result is exactly that of the binary strategy
(so when both fail, decode returns `none`). -/
theorem decode_strategy_order (from_structured from_binary : Strategy) (msg : RawMessage) :
    (msg.value = none → parse_cloud_event from_structured from_binary msg = none) ∧
    (∀ v, msg.value = some v →
      (∀ e, from_structured (to_kafka_message msg v) = some e →
        parse_cloud_event from_structured from_binary msg = some e) ∧
      (from_structured (to_kafka_message msg v) = none →
        parse_cloud_event from_structured from_binary msg =
          from_binary (to_kafka_message msg v))) := by
  refine ⟨fun h => by simp [parse_cloud_event, h], fun v hv => ⟨fun e he => ?_, fun hf => ?_⟩⟩
  · simp [parse_cloud_event, hv, he]
  · simp only [parse_cloud_event, hv, hf]
    cases hg : from_binary (to_kafka_message msg v) <;> simp [hg]

/-- Witness for C1: on a message with a present value, a failing structured
strategy and a binary strategy that returns `sample_event`, decode returns
`sample_event`. -/
theorem decode_strategy_order_witness :
    parse_cloud_event strat_none (strat_const sample_event) sample_msg =
      strat_const sample_event (to_kafka_message sample_msg "body") :=
  ((decode_strategy_order strat_none (strat_const sample_event) sample_msg).2
    "body" rfl).2 rfl

/-- C2: from a zero counter, 5 consecutive transport errors terminate the
loop fatally without processing any later poll (the result does not depend
on `rest`), while 4 do not; a successful poll resets the counter to 0 from
any state, and an end-of-partition signal is not counted as an error. -/
theorem error_threshold (m : ConsumerModel) (e : String)
    (rest : List PollResult) (st : LoopState) (raw : RawMessage) :
    run_loop m ⟨0⟩ (List.replicate 5 (PollResult.err e) ++ rest) =
      (⟨5⟩, List.replicate 4 Effects.empty, some (PyExc.kafkaExc e)) ∧
    run_loop m ⟨0⟩ (List.replicate 4 (PollResult.err e)) =
      (⟨4⟩, List.replicate 4 Effects.empty, none) ∧
    (loop_step m st (PollResult.msg raw)).nextErrors = some 0 ∧
    loop_step m st PollResult.eof = StepRes.cont st Effects.empty := by
  refine ⟨rfl, rfl, ?_, rfl⟩
  cases hp : parse_cloud_event m.from_structured m.from_binary raw <;>
    simp [loop_step, hp, StepRes.nextErrors]

/-- C3 counterexample: with every handle present, when the producer flush
raises, `close` stops after the flush — the consumer close and the core
close are not attempted, contradicting the claim that all three releases
are attempted even if an earlier one fails. -/
theorem close_counterexample :
    consumer_close close_env_flush_raises =
      ([CloseStep.producerFlush 5], some "flush timed out") ∧
    CloseStep.consumerClose ∉ (consumer_close close_env_flush_raises).1 ∧
    CloseStep.coreClose ∉ (consumer_close close_env_flush_raises).1 :=
  ⟨rfl, by decide, by decide⟩

/-- C3 amended: during shutdown the three releases run in the strict order
producer flush (with a bounded 5-second wait), then consumer close, then
delegate close; but an exception in an earlier release propagates out of
`close`, and the later releases are skipped rather than attempted. -/
theorem close_release_order (env : CloseEnv)
    (hp : env.producer_present = true) (hc : env.consumer_present = true)
    (hk : env.core_present = true) :
    (env.flush_result = none → env.consumer_close_result = none →
      consumer_close env =
        ([CloseStep.producerFlush 5, CloseStep.consumerClose, CloseStep.coreClose],
         env.core_close_result)) ∧
    (∀ e, env.flush_result = some e →
      consumer_close env = ([CloseStep.producerFlush 5], some e)) ∧
    (∀ e, env.flush_result = none → env.consumer_close_result = some e →
      consumer_close env =
        ([CloseStep.producerFlush 5, CloseStep.consumerClose], some e)) := by
  refine ⟨fun h1 h2 => ?_, fun e h1 => ?_, fun e h1 h2 => ?_⟩ <;>
    simp [consumer_close, close_consumer_part, close_core_part, hp, hc, hk, h1]
  · simp [h2]
  · simp [h2]

/-- Witness for C3 amended: with all handles present and all releases
succeeding, the three releases run in order. -/
theorem close_release_order_witness :
    consumer_close close_env_ok =
      ([CloseStep.producerFlush 5, CloseStep.consumerClose, CloseStep.coreClose],
       none) :=
  (close_release_order close_env_ok rfl rfl rfl).1 rfl rfl

/-- C4: when both decode strategies fail on a message, the loop iteration
for that message performs no effects at all — the handler is not invoked,
no destination is resolved, nothing is produced — and the loop continues
(non-fatally) with the counter reset by the successful read. -/
theorem undecoded_message_skipped (m : ConsumerModel) (raw : RawMessage) (st : LoopState)
    (h : parse_cloud_event m.from_structured m.from_binary raw = none) :
    loop_step m st (PollResult.msg raw) = StepRes.cont ⟨0⟩ Effects.empty ∧
    ((loop_step m st (PollResult.msg raw)).getEff).handlerCalls = [] ∧
    ((loop_step m st (PollResult.msg raw)).getEff).resolveCalls = [] ∧
    (loop_step m st (PollResult.msg raw)).isFatal = false := by
  have hs : loop_step m st (PollResult.msg raw) = StepRes.cont ⟨0⟩ Effects.empty := by
    simp [loop_step, h]
  exact ⟨hs, by rw [hs]; rfl, by rw [hs]; rfl, by rw [hs]; rfl⟩

/-- Witness for C4: a consumer whose two strategies both fail skips the
sample message with no effects. -/
theorem undecoded_message_skipped_witness :
    loop_step model0 ⟨0⟩ (PollResult.msg sample_msg) = StepRes.cont ⟨0⟩ Effects.empty ∧
    ((loop_step model0 ⟨0⟩ (PollResult.msg sample_msg)).getEff).handlerCalls = [] ∧
    ((loop_step model0 ⟨0⟩ (PollResult.msg sample_msg)).getEff).resolveCalls = [] ∧
    (loop_step model0 ⟨0⟩ (PollResult.msg sample_msg)).isFatal = false :=
  undecoded_message_skipped model0 sample_msg ⟨0⟩ rfl

/-- C5: construction classifies the handler exactly once via
`detect_output_handler` and creates the producer exactly for that
classification: a handler declared to return nothing (return hint absent or
`None`) is classified simple and no producer is constructed; a handler whose
declared return type mentions `CloudEvent` (as `Optional[CloudEvent]` and
`CloudEvent` renderings do) is classified output-producing and a producer is
constructed. -/
theorem handler_classification (sig : HandlerSig)
    (handler : CloudEvent → Except String (Option CloudEvent))
    (from_structured from_binary : Strategy) (core : CoreModel) :
    ((consumer_init sig handler from_structured from_binary core).is_output_handler =
      detect_output_handler sig) ∧
    ((consumer_init sig handler from_structured from_binary core).producer_present =
      detect_output_handler sig) ∧
    (sig.return_type = none →
      (consumer_init sig handler from_structured from_binary core).is_output_handler = false ∧
      (consumer_init sig handler from_structured from_binary core).producer_present = false) ∧
    (∀ s, sig.has_hints = true → sig.return_type = some s → mentions_cloud_event s = true →
      (consumer_init sig handler from_structured from_binary core).is_output_handler = true ∧
      (consumer_init sig handler from_structured from_binary core).producer_present = true) := by
  refine ⟨rfl, rfl, fun h => ?_, fun s hh hr hm => ?_⟩
  · constructor <;> simp [consumer_init, detect_output_handler, h]
  · constructor <;> simp [consumer_init, detect_output_handler, hh, hr, hm]

/-- Witness for C5: the `Optional[CloudEvent]` signature yields an
output-producing consumer with a producer; the `-> None` signature yields a
simple consumer without one. -/
theorem handler_classification_witness :
    ((consumer_init sig_output handler_out strat_none strat_none core_kafka).is_output_handler = true ∧
     (consumer_init sig_output handler_out strat_none strat_none core_kafka).producer_present = true) ∧
    ((consumer_init sig_simple handler_none strat_none strat_none core0).is_output_handler = false ∧
     (consumer_init sig_simple handler_none strat_none strat_none core0).producer_present = false) :=
  ⟨(handler_classification sig_output handler_out strat_none strat_none core_kafka).2.2.2
      "typing.Optional[cloudevents.http.event.CloudEvent]" rfl rfl (by decide),
   (handler_classification sig_simple handler_none strat_none strat_none core0).2.2.1 rfl⟩

/-- C6: dispatching to an output-producing handler with the producer
present resolves a destination (the routing step) exactly when the handler
returns a present event — exactly one resolution, on the serialized output
event; when the handler returns absent or raises, and for every
simple-handler invocation — whatever the producer state, so in particular
for the producerless consumers a simple classification constructs — no
destination is resolved. -/
theorem routing_iff_present_output (m : ConsumerModel) (event : CloudEvent) :
    (∀ oe, m.is_output_handler = true → m.producer_present = true →
      m.handler event = Except.ok (some oe) →
      (invoke_handler m event).eff.resolveCalls = [json_dumps (event_dict oe)]) ∧
    (m.is_output_handler = true → m.handler event = Except.ok none →
      (invoke_handler m event).eff.resolveCalls = []) ∧
    (∀ e, m.is_output_handler = true → m.handler event = Except.error e →
      (invoke_handler m event).eff.resolveCalls = []) ∧
    (m.is_output_handler = false →
      (invoke_handler m event).eff.resolveCalls = []) := by
  refine ⟨fun oe ho hp hh => ?_, fun ho hh => ?_, fun e ho hh => ?_, fun ho => ?_⟩
  · simp only [invoke_handler, ho, if_true, hh]
    simp only [publish_output_event, hp]
    cases hres : m.core.get_output_destination (json_dumps (event_dict oe)) with
    | error e => simp [Effects.append, Effects.empty, hres]
    | ok dest =>
      by_cases h0 : dest.type = DestinationType.KAFKA
      · simp [hres, h0, publish_to_kafka, hp, Effects.append, Effects.empty]
      · by_cases h1 : dest.type = DestinationType.DISCARD
        · simp [hres, h0, h1, Effects.append, Effects.empty,
            DestinationType.KAFKA, DestinationType.DISCARD]
        · by_cases h2 : dest.type = DestinationType.HTTP ∨ dest.type = DestinationType.RABBITMQ
          · rcases h2 with h2 | h2 <;>
              simp [hres, h0, h1, h2, Effects.append, Effects.empty,
                DestinationType.KAFKA, DestinationType.DISCARD,
                DestinationType.HTTP, DestinationType.RABBITMQ]
          · simp [hres, h0, h1, h2, Effects.append, Effects.empty]
  · simp [invoke_handler, ho, hh, Effects.empty]
  · simp [invoke_handler, ho, hh, Effects.empty]
  · cases hh : m.handler event <;> simp [invoke_handler, ho, hh, Effects.empty]

/-- Witness for C6: the Kafka-routing output consumer resolves exactly one
destination for the serialized output event, while the simple consumer —
which has no producer — resolves none. -/
theorem routing_iff_present_output_witness :
    (invoke_handler model_out sample_event).eff.resolveCalls =
      [json_dumps (event_dict sample_out_event)] ∧
    (invoke_handler model0 sample_event).eff.resolveCalls = [] :=
  ⟨(routing_iff_present_output model_out sample_event).1 sample_out_event rfl rfl rfl,
   (routing_iff_present_output model0 sample_event).2.2.2 rfl⟩

/-- Helper: with the producer present and the delegate resolving `dest`,
`publish_output_event` reduces to the four-way branch on the destination
kind. -/
theorem publish_output_event_ok (m : ConsumerModel) (event : CloudEvent)
    (dest : OutputDestination) (hp : m.producer_present = true)
    (hres : m.core.get_output_destination (json_dumps (event_dict event)) = Except.ok dest) :
    publish_output_event m event =
      if dest.type = DestinationType.KAFKA then
        ⟨{ Effects.empty with
            resolveCalls := [json_dumps (event_dict event)]
            produceCalls := [(dest.target, event.id, json_dumps (event_dict event))] },
         Except.ok RouteOutcome.delivered⟩
      else if dest.type = DestinationType.DISCARD then
        ⟨{ Effects.empty with resolveCalls := [json_dumps (event_dict event)] },
         Except.ok RouteOutcome.discarded⟩
      else if dest.type = DestinationType.HTTP ∨ dest.type = DestinationType.RABBITMQ then
        ⟨{ Effects.empty with resolveCalls := [json_dumps (event_dict event)] },
         Except.ok RouteOutcome.discardedUnsupported⟩
      else
        ⟨{ Effects.empty with resolveCalls := [json_dumps (event_dict event)] },
         Except.error (PyExc.unknownDest dest.type)⟩ := by
  simp [publish_output_event, hp, hres]
  split_ifs with h0 h1 h2 <;>
    simp [publish_to_kafka, hp, Effects.append, Effects.empty]

/-- C7: with the producer present, the router branches on the resolved
destination kind: DISCARD produces nothing and yields the discarded outcome;
RABBITMQ and HTTP produce nothing, log a warning and are treated as
discarded; any kind outside the four enumerated values raises the
unknown-destination error, fatal for that message. -/
theorem destination_branching (m : ConsumerModel) (event : CloudEvent)
    (dest : OutputDestination) (hp : m.producer_present = true)
    (hres : m.core.get_output_destination (json_dumps (event_dict event)) = Except.ok dest) :
    (dest.type = DestinationType.DISCARD →
      (publish_output_event m event).eff.produceCalls = [] ∧
      (publish_output_event m event).res = Except.ok RouteOutcome.discarded) ∧
    (dest.type = DestinationType.RABBITMQ ∨ dest.type = DestinationType.HTTP →
      (publish_output_event m event).eff.produceCalls = [] ∧
      (publish_output_event m event).res = Except.ok RouteOutcome.discardedUnsupported) ∧
    (dest.type ≠ DestinationType.KAFKA → dest.type ≠ DestinationType.RABBITMQ →
      dest.type ≠ DestinationType.HTTP → dest.type ≠ DestinationType.DISCARD →
      (publish_output_event m event).eff.produceCalls = [] ∧
      (publish_output_event m event).res = Except.error (PyExc.unknownDest dest.type)) := by
  refine ⟨fun h => ?_, fun h => ?_, fun h0 h1 h2 h3 => ?_⟩ <;>
    rw [publish_output_event_ok m event dest hp hres]
  · simp [h, DestinationType.DISCARD, DestinationType.KAFKA, Effects.empty]
  · rcases h with h | h <;>
      simp [h, DestinationType.RABBITMQ, DestinationType.HTTP,
        DestinationType.KAFKA, DestinationType.DISCARD, Effects.empty]
  · simp [h0, h1, h2, h3, Effects.empty]

/-- Witness for C7: the DISCARD-routing consumer yields the discarded
outcome with no produce call. -/
theorem destination_branching_witness :
    (publish_output_event model_discard sample_out_event).eff.produceCalls = [] ∧
    (publish_output_event model_discard sample_out_event).res =
      Except.ok RouteOutcome.discarded :=
  (destination_branching model_discard sample_out_event dest_discard rfl rfl).1 rfl

/-- C8: with the producer present and a KAFKA destination resolved, exactly
one produce call occurs, to the destination target as topic, keyed by the
output event id, carrying the canonical JSON of the event dict; and the
event dict consists of `specversion`, `type`, `source`, `id` in that order
followed by `time`, `datacontenttype`, `data` each included only when
present. -/
theorem kafka_publish_canonical (m : ConsumerModel) (event : CloudEvent)
    (dest : OutputDestination) (hp : m.producer_present = true)
    (hres : m.core.get_output_destination (json_dumps (event_dict event)) = Except.ok dest)
    (hk : dest.type = DestinationType.KAFKA) :
    (publish_output_event m event).eff.produceCalls =
      [(dest.target, event.id, json_dumps (event_dict event))] ∧
    (publish_output_event m event).res = Except.ok RouteOutcome.delivered ∧
    event_dict event =
      [("specversion", JVal.str event.specversion), ("type", JVal.str event.type),
       ("source", JVal.str event.source), ("id", JVal.str event.id)] ++
      (match event.time with | some t => [("time", JVal.str t)] | none => []) ++
      (match event.datacontenttype with
       | some c => [("datacontenttype", JVal.str c)] | none => []) ++
      (match event.data with | some x => [("data", JVal.raw x)] | none => []) := by
  refine ⟨?_, ?_, ?_⟩
  · rw [publish_output_event_ok m event dest hp hres]; simp [hk]
  · rw [publish_output_event_ok m event dest hp hres]; simp [hk]
  · rcases event with ⟨sv, ty, src, i, t, dct, da⟩
    cases t <;> cases dct <;> cases da <;> simp [event_dict]

/-- Witness for C8: the Kafka-routing consumer produces exactly one message
to `out-topic`, keyed by the output event id. -/
theorem kafka_publish_canonical_witness :
    (publish_output_event model_out sample_out_event).eff.produceCalls =
      [(dest_kafka.target, sample_out_event.id,
        json_dumps (event_dict sample_out_event))] :=
  (kafka_publish_canonical model_out sample_out_event dest_kafka rfl rfl rfl).1

/-- C9: when the handler raises on a decoded message, the iteration is
non-fatal (the exception is caught), the counter is reset by the successful
read, the handler was invoked exactly once (no re-invocation), nothing is
routed or produced (no redelivery), `should_retry` is consulted exactly once
and `calculate_backoff` exactly when that consultation answers true — and
all of this holds for every delegate behaviour, including `should_retry` or
`calculate_backoff` raising, so a failing consultation is itself non-fatal. -/
theorem handler_error_caught (m : ConsumerModel) (st : LoopState) (raw : RawMessage)
    (event : CloudEvent) (err : String)
    (hdec : parse_cloud_event m.from_structured m.from_binary raw = some event)
    (herr : m.handler event = Except.error err) :
    (loop_step m st (PollResult.msg raw)).isFatal = false ∧
    (loop_step m st (PollResult.msg raw)).nextErrors = some 0 ∧
    (loop_step m st (PollResult.msg raw)).getEff.handlerCalls = [event] ∧
    (loop_step m st (PollResult.msg raw)).getEff.resolveCalls = [] ∧
    (loop_step m st (PollResult.msg raw)).getEff.produceCalls = [] ∧
    (loop_step m st (PollResult.msg raw)).getEff.retryChecks = 1 ∧
    (loop_step m st (PollResult.msg raw)).getEff.backoffChecks =
      (match m.core.should_retry err 1 with
       | Except.ok true => 1
       | _ => 0) := by
  have hstep : loop_step m st (PollResult.msg raw)
      = StepRes.cont ⟨0⟩ (handle_message m event) := by
    simp [loop_step, hdec]
  have hinv : invoke_handler m event =
      ⟨{ Effects.empty with handlerCalls := [event] },
       Except.error (PyExc.handlerExc err)⟩ := by
    cases ho : m.is_output_handler <;> simp [invoke_handler, ho, herr]
  rw [hstep]
  simp only [StepRes.isFatal, StepRes.nextErrors, StepRes.getEff]
  refine ⟨trivial, trivial, ?_⟩
  simp only [handle_message, hinv, PyExc.toMessage]
  cases hr : m.core.should_retry err 1 with
  | error e2 => simp [Effects.empty]
  | ok should =>
    cases should with
    | false => simp [Effects.empty]
    | true =>
      cases hb : m.core.calculate_backoff 1 <;> simp [Effects.empty]

/-- Witness for C9: the raising-handler consumer processes the sample
message non-fatally with exactly one handler invocation and no produce
call. -/
theorem handler_error_caught_witness :
    (loop_step model_err ⟨3⟩ (PollResult.msg sample_msg)).isFatal = false ∧
    (loop_step model_err ⟨3⟩ (PollResult.msg sample_msg)).getEff.handlerCalls =
      [sample_event] ∧
    (loop_step model_err ⟨3⟩ (PollResult.msg sample_msg)).getEff.produceCalls = [] :=
  ⟨(handler_error_caught model_err ⟨3⟩ sample_msg sample_event "boom" rfl rfl).1,
   (handler_error_caught model_err ⟨3⟩ sample_msg sample_event "boom" rfl rfl).2.2.1,
   (handler_error_caught model_err ⟨3⟩ sample_msg sample_event "boom" rfl rfl).2.2.2.2.1⟩

/-- C10: an output-producing classification makes construction create the
producer, and with the producer present (it is assigned only in `__init__`
and never reassigned) neither the output-routing operation nor the
Kafka-publish operation can raise the producer-not-initialized error, for
any delegate behaviour and any event. -/
theorem producer_guard_unreachable (sig : HandlerSig)
    (handler : CloudEvent → Except String (Option CloudEvent))
    (from_structured from_binary : Strategy) (core : CoreModel)
    (h : detect_output_handler sig = true) :
    (consumer_init sig handler from_structured from_binary core).producer_present = true ∧
    (∀ (m : ConsumerModel), m.producer_present = true → ∀ event : CloudEvent,
      (publish_output_event m event).res ≠ Except.error PyExc.producerNotInitialized ∧
      ∀ topic, (publish_to_kafka m event topic).res ≠
        Except.error PyExc.producerNotInitialized) := by
  refine ⟨by simp [consumer_init, h], fun m hm event => ⟨?_, fun topic => ?_⟩⟩
  · simp only [publish_output_event, hm]
    cases hres : m.core.get_output_destination (json_dumps (event_dict event)) with
    | error e => simp
    | ok dest =>
      by_cases h0 : dest.type = DestinationType.KAFKA
      · simp [hres, h0, publish_to_kafka, hm]
      · by_cases h1 : dest.type = DestinationType.DISCARD
        · simp [hres, h0, h1, DestinationType.KAFKA, DestinationType.DISCARD]
        · by_cases h2 : dest.type = DestinationType.HTTP ∨ dest.type = DestinationType.RABBITMQ
          · rcases h2 with h2 | h2 <;>
              simp [hres, h0, h1, h2, DestinationType.KAFKA, DestinationType.DISCARD,
                DestinationType.HTTP, DestinationType.RABBITMQ]
          · simp [hres, h0, h1, h2]
  · simp [publish_to_kafka, hm]

/-- Witness for C10: the `Optional[CloudEvent]` signature yields a producer,
and on the Kafka-routing consumer the output publish does not hit the
producer guard. -/
theorem producer_guard_unreachable_witness :
    (consumer_init sig_output handler_out strat_none strat_none core_kafka).producer_present =
      true ∧
    (publish_output_event model_out sample_out_event).res ≠
      Except.error PyExc.producerNotInitialized :=
  ⟨(producer_guard_unreachable sig_output handler_out strat_none strat_none core_kafka
      (by decide)).1,
   ((producer_guard_unreachable sig_output handler_out strat_none strat_none core_kafka
      (by decide)).2 model_out rfl sample_out_event).1⟩

end EdaSdk
